import Mathlib

/-!
Shallow embedding of `src/CouchbaseLibrary.py` (robotframework-couchbaselibrary).

The library is a facade over an external Couchbase client.  The facade keeps
two pieces of state: `self._bucket` (an optional reference to the most
recently connected / switched-to bucket handle) and `self._cache`
(a multi-connection registry, `robot.utils.ConnectionCache`, external to the
repository and therefore modelled from the spec, section 4.1).

External effects are made explicit:
  * the outcome of opening a connection (`Bucket(...)`) is an input of type
    `Except String Handle` (the `String` is the `CouchbaseError` message);
  * the external store's quiet `get` is a pure function
    `Store : Handle → String → GetResult`; a non-quiet `get` is derived from
    it (`clientGet`) and fails with `NotFoundError` exactly when the quiet
    result's success flag is false;
  * the JSON validator (`JsonValidator().element_should_exist`) is a function
    `Validator : Value → String → Except String Unit`, erroring exactly when
    it would raise `JsonValidatorError`;
  * closing a handle is recorded as an event in a trace `closed : List Handle`.

Raised Python exceptions are modelled as `Except LibErr` results.
-/

namespace CouchbaseLib

/-- Document values are opaque to the library (it passes them through to the
external client and validator unchanged); we model them as strings. -/
abbrev Value := String

/-- An open bucket connection handle, identified by a number.  The facade
never inspects a handle; it only stores it, passes it to the client, and
closes it. -/
abbrev Handle := Nat

/-- The record returned by the external client's quiet `get`
(success flag, return code `rc`, CAS token, document value) — the interface
contract of section 6 of the spec. -/
structure GetResult where
  success : Bool
  rc : Nat
  cas : Nat
  value : Value
deriving DecidableEq

/-- The external store, as seen through quiet `get`: for each handle and key,
the result record the client returns.  A missing key is a record whose
`success` is `false`. -/
abbrev Store := Handle → String → GetResult

/-- The external JSON validator: `element_should_exist value expr` either
succeeds (the expression matches) or errors with a `JsonValidatorError`
message (no match, syntax error, type mismatch). -/
abbrev Validator := Value → String → Except String Unit

/-- Exceptions the library can raise, one constructor per raise site:
`connectionError` is the `Exception` raised by `connect_to_couchbase_bucket`
wrapping a `CouchbaseError`; `noActiveConnection` is
`Exception('There is no open connection to a Couchbase bucket.')`;
`notFound` is the client's `NotFoundError` from a non-quiet `get`;
`switchNotFound` is the registry's error for an unknown index or alias. -/
inductive LibErr where
  | connectionError (message : String)
  | noActiveConnection
  | notFound
  | switchNotFound
deriving DecidableEq

/-- Modelled from the spec: the connection registry
(`robot.utils.ConnectionCache`, external to the repository; spec section 3
and 4.1).  It holds the registered handles in registration order (the entry
at list position `i` has 1-based index `i + 1`), the alias bindings, and the
current-index pointer (`none` when empty/unset). -/
structure CacheState where
  connections : List Handle
  aliases : List (String × Nat)
  current : Option Nat
deriving DecidableEq

/-- The empty registry: no entries, no aliases, current unset. -/
def CacheState.empty : CacheState := ⟨[], [], none⟩

/-- Modelled from the spec: `register(handle, alias?) → index` appends a new
entry with the next sequential index, binds the alias when given
(last-write-wins, newest binding first), sets the new entry as current, and
returns the assigned index.  Always succeeds. -/
def CacheState.register (c : CacheState) (conn : Handle) (aliasOpt : Option String) :
    CacheState × Nat :=
  let index := c.connections.length + 1
  let aliases :=
    match aliasOpt with
    | some a => (a, index) :: c.aliases
    | none => c.aliases
  ({ connections := c.connections ++ [conn], aliases := aliases, current := some index },
   index)

/-- Alias lookup: the index bound to the given alias, newest binding first. -/
def lookupAlias (a : String) : List (String × Nat) → Option Nat
  | [] => none
  | (x, i) :: rest => if x = a then some i else lookupAlias a rest

/-- A switch argument: `switch_couchbase_bucket_connections` accepts a
connection index or an alias (`Union[int, str]`). -/
inductive IndexOrAlias where
  | idx (i : Nat)
  | name (a : String)
deriving DecidableEq

/-- Modelled from the spec: look an entry up by alias first, falling back to
a numeric index (the disambiguation policy fixed in spec section 4.1);
`none` when no registered entry matches either way. -/
def CacheState.resolve (c : CacheState) : IndexOrAlias → Option Nat
  | .idx i => if 1 ≤ i ∧ i ≤ c.connections.length then some i else none
  | .name a =>
    match lookupAlias a c.aliases with
    | some i => some i
    | none =>
      match a.toNat? with
      | some i => if 1 ≤ i ∧ i ≤ c.connections.length then some i else none
      | none => none

/-- Modelled from the spec: `switch(indexOrAlias)` sets the matched entry as
current and yields its handle; it fails with `NotFoundError` (and changes
nothing) when no entry matches. -/
def CacheState.switch (c : CacheState) (arg : IndexOrAlias) :
    Except LibErr (CacheState × Handle) :=
  match c.resolve arg with
  | none => .error .switchNotFound
  | some i =>
    match c.connections.get? (i - 1) with
    | none => .error .switchNotFound
    | some conn => .ok ({ c with current := some i }, conn)

/-- The facade's state: `bucket` is `self._bucket` (`None` at construction),
`cache` is the registry, and `closed` is the trace of close events issued to
external handles (most recent last). -/
structure LibState where
  bucket : Option Handle
  cache : CacheState
  closed : List Handle
deriving DecidableEq

/-- Source `__init__`: no bucket reference, a fresh empty cache, no close issued. -/
def initState : LibState := ⟨none, CacheState.empty, []⟩

/-- Source `connect_to_couchbase_bucket`: the external `Bucket(...)` outcome is the
input `openResult`.  On `CouchbaseError` the facade raises
`Exception(f"Could not connect to Couchbase bucket. Error: {info}")` and the
state is unchanged; on success it stores the handle in `self._bucket`,
registers it in the cache, and returns the assigned index. -/
def connect_to_couchbase_bucket (s : LibState) (openResult : Except String Handle)
    (aliasOpt : Option String) : LibState × Except LibErr Nat :=
  match openResult with
  | .error info =>
    (s, .error (.connectionError ("Could not connect to Couchbase bucket. Error: " ++ info)))
  | .ok bucket =>
    let r := s.cache.register bucket aliasOpt
    ({ s with bucket := some bucket, cache := r.1 }, .ok r.2)

/-- Source `disconnect_from_couchbase_bucket`: if `self._bucket` is truthy, close it
(recorded in the trace); then empty the whole cache.  Note that
`self._bucket` itself is NOT reset. -/
def disconnect_from_couchbase_bucket (s : LibState) : LibState :=
  let closed :=
    match s.bucket with
    | some b => s.closed ++ [b]
    | none => s.closed
  { s with closed := closed, cache := CacheState.empty }

/-- Source `close_all_couchbase_bucket_connections`: `self._bucket =
self._cache.close_all()`.  Modelled from the spec for the external cache:
`closeAllAndClear` closes every registered entry, clears all entries and
aliases, resets current to unset, and returns the no-connection value, so
`self._bucket` becomes unset. -/
def close_all_couchbase_bucket_connections (s : LibState) : LibState :=
  { bucket := none, cache := CacheState.empty, closed := s.closed ++ s.cache.connections }

/-- Source `switch_couchbase_bucket_connections`: reads the current index, then
`self._bucket = self._cache.switch(index_or_alias)` and returns the old
index.  When the cache lookup fails the exception propagates before any
assignment, so the state is unchanged. -/
def switch_couchbase_bucket_connections (s : LibState) (arg : IndexOrAlias) :
    LibState × Except LibErr (Option Nat) :=
  let oldIndex := s.cache.current
  match s.cache.switch arg with
  | .error e => (s, .error e)
  | .ok (cache, conn) => ({ s with cache := cache, bucket := some conn }, .ok oldIndex)

/-- The external client's `get(handle, key, quiet)`: quiet mode always
returns the store's record; non-quiet mode raises `NotFoundError` when the
record's success flag is false (spec section 6). -/
def clientGet (store : Store) (b : Handle) (key : String) (quiet : Bool) :
    Except LibErr GetResult :=
  let r := store b key
  if quiet then .ok r
  else if r.success then .ok r else .error .notFound

/-- Source `view_document_by_key`: guard on `self._bucket is None`, then
`self._bucket.get(key, quiet=True).rc`. -/
def view_document_by_key (store : Store) (s : LibState) (key : String) :
    Except LibErr Nat :=
  match s.bucket with
  | none => .error .noActiveConnection
  | some b => (clientGet store b key true).map GetResult.rc

/-- Source `bucket_contains_document_by_key`: guard, then
`self._bucket.get(key, quiet=True).success is True`. -/
def bucket_contains_document_by_key (store : Store) (s : LibState) (key : String) :
    Except LibErr Bool :=
  match s.bucket with
  | none => .error .noActiveConnection
  | some b => (clientGet store b key true).map GetResult.success

/-- Source `get_document_cas_by_key`: guard, then `self._bucket.get(key).cas`
(non-quiet `get`). -/
def get_document_cas_by_key (store : Store) (s : LibState) (key : String) :
    Except LibErr Nat :=
  match s.bucket with
  | none => .error .noActiveConnection
  | some b => (clientGet store b key false).map GetResult.cas

/-- Source `get_document_value_by_key`: guard, then `self._bucket.get(key).value`
(non-quiet `get`). -/
def get_document_value_by_key (store : Store) (s : LibState) (key : String) :
    Except LibErr Value :=
  match s.bucket with
  | none => .error .noActiveConnection
  | some b => (clientGet store b key false).map GetResult.value

/-- Source `validate_document_by_json`: guard; quiet `get`; `False` when the result
is not a success; otherwise run the validator, returning `False` when it
raises `JsonValidatorError` (logged) and `True` when it succeeds. -/
def validate_document_by_json (store : Store) (validator : Validator) (s : LibState)
    (key jsonExpr : String) : Except LibErr Bool :=
  match s.bucket with
  | none => .error .noActiveConnection
  | some b =>
    let result := store b key
    if result.success then
      match validator result.value jsonExpr with
      | .error _ => .ok false
      | .ok _ => .ok true
    else .ok false

/-- Source `certainly_delete_document_by_key`: guard, then issue
`self._bucket.remove(key, quiet=True)`; the returned pair records the handle
and key the quiet remove was delegated with (the remove never raises). -/
def certainly_delete_document_by_key (s : LibState) (key : String) :
    Except LibErr (Handle × String) :=
  match s.bucket with
  | none => .error .noActiveConnection
  | some b => .ok (b, key)

/-- Source `upsert_document`: guard, then issue `self._bucket.upsert(key, value)`;
the returned triple records the handle, key and value delegated to the
client. -/
def upsert_document (s : LibState) (key : String) (value : Value) :
    Except LibErr (Handle × String × Value) :=
  match s.bucket with
  | none => .error .noActiveConnection
  | some b => .ok (b, key, value)

/-- Run a sequence of `connect_to_couchbase_bucket` calls, each opening
successfully with the given handle and optional alias, collecting the state
after each call together with that call's result. -/
def runConnects : List (Handle × Option String) → LibState →
    List (LibState × Except LibErr Nat)
  | [], _ => []
  | (h, a) :: rest, s =>
    let step := connect_to_couchbase_bucket s (.ok h) a
    step :: runConnects rest step.1

/-! ## Theorems -/

/-- Claim C8: when the external client fails to open a connection,
`connect_to_couchbase_bucket` wraps the failure and re-raises it as a
connection error carrying the original cause in its message; the failure is
always surfaced to the caller and the state is unchanged. -/
theorem connect_failure_wrapped (s : LibState) (info : String) (aliasOpt : Option String) :
    connect_to_couchbase_bucket s (.error info) aliasOpt
      = (s, .error (.connectionError
          ("Could not connect to Couchbase bucket. Error: " ++ info))) := rfl

/-- Claim C5: after `close_all_couchbase_bucket_connections` the registry's
index counter is reset, so the next successful connect returns index 1. -/
theorem connect_after_close_all_returns_one (s : LibState) (h : Handle)
    (aliasOpt : Option String) :
    (connect_to_couchbase_bucket (close_all_couchbase_bucket_connections s)
        (.ok h) aliasOpt).2 = .ok 1 := by
  cases aliasOpt <;> rfl

/-- Claim C2: `disconnect_from_couchbase_bucket` always fully clears the
registry; when a current handle exists it is closed; with no active
connection (no stored bucket) it raises no error and only clears the
already-empty cache. -/
theorem disconnect_closes_current_and_clears_registry (s : LibState) :
    (disconnect_from_couchbase_bucket s).cache = CacheState.empty ∧
    (∀ b, s.bucket = some b →
      (disconnect_from_couchbase_bucket s).closed = s.closed ++ [b]) ∧
    (s.bucket = none →
      disconnect_from_couchbase_bucket s = { s with cache := CacheState.empty }) := by
  refine ⟨rfl, ?_, ?_⟩
  · intro b hb
    simp [disconnect_from_couchbase_bucket, hb]
  · intro hb
    simp [disconnect_from_couchbase_bucket, hb]

def w2State : LibState := ⟨some 5, ⟨[5], [], some 1⟩, []⟩

theorem disconnect_closes_current_and_clears_registry_witness :
    (disconnect_from_couchbase_bucket w2State).closed = w2State.closed ++ [5] ∧
    disconnect_from_couchbase_bucket initState = { initState with cache := CacheState.empty } :=
  ⟨(disconnect_closes_current_and_clears_registry w2State).2.1 5 rfl,
   (disconnect_closes_current_and_clears_registry initState).2.2 rfl⟩

/-- Claim C3: after `disconnect_from_couchbase_bucket` closes a previously
connected bucket, `self._bucket` is not reset even though the cache is
emptied; a subsequent document operation passes the no-open-connection guard
and is issued against the closed handle, and a second disconnect closes the
same handle again. -/
theorem stale_bucket_after_disconnect (store : Store) (s : LibState) (b : Handle)
    (key : String) (hb : s.bucket = some b) :
    (disconnect_from_couchbase_bucket s).bucket = some b ∧
    (disconnect_from_couchbase_bucket s).cache = CacheState.empty ∧
    (disconnect_from_couchbase_bucket s).closed = s.closed ++ [b] ∧
    view_document_by_key store (disconnect_from_couchbase_bucket s) key
      = .ok (store b key).rc ∧
    (disconnect_from_couchbase_bucket
        (disconnect_from_couchbase_bucket s)).closed = s.closed ++ [b, b] := by
  refine ⟨?_, rfl, ?_, ?_, ?_⟩
  · simp [disconnect_from_couchbase_bucket, hb]
  · simp [disconnect_from_couchbase_bucket, hb]
  · simp [view_document_by_key, clientGet, disconnect_from_couchbase_bucket, hb,
      Except.map]
  · simp [disconnect_from_couchbase_bucket, hb]

def w3Store : Store := fun _ _ => ⟨false, 13, 0, ""⟩

def w3State : LibState := (connect_to_couchbase_bucket initState (.ok 7) none).1

theorem stale_bucket_after_disconnect_witness :
    (disconnect_from_couchbase_bucket w3State).bucket = some 7 ∧
    (disconnect_from_couchbase_bucket w3State).cache = CacheState.empty ∧
    (disconnect_from_couchbase_bucket w3State).closed = w3State.closed ++ [7] ∧
    view_document_by_key w3Store (disconnect_from_couchbase_bucket w3State) "k"
      = .ok (w3Store 7 "k").rc ∧
    (disconnect_from_couchbase_bucket
        (disconnect_from_couchbase_bucket w3State)).closed = w3State.closed ++ [7, 7] :=
  stale_bucket_after_disconnect w3Store w3State 7 "k" rfl

/-- Claim C7: a switch with an index or alias that matches no registered
entry fails with the registry's not-found error and leaves the whole state
(including the current connection) unchanged. -/
theorem switch_unknown_fails_state_unchanged (s : LibState) (arg : IndexOrAlias)
    (h : s.cache.resolve arg = none) :
    switch_couchbase_bucket_connections s arg = (s, .error .switchNotFound) := by
  simp [switch_couchbase_bucket_connections, CacheState.switch, h]

theorem switch_unknown_fails_state_unchanged_witness :
    initState.cache.resolve (.idx 5) = none ∧
    switch_couchbase_bucket_connections initState (.idx 5)
      = (initState, .error .switchNotFound) :=
  ⟨by decide, switch_unknown_fails_state_unchanged initState (.idx 5) (by decide)⟩

def okValidator : Validator := fun _ _ => .ok ()

def hitStore : Store := fun _ _ => ⟨true, 0, 42, "doc"⟩

def w9State : LibState := ⟨some 3, ⟨[3], [], some 1⟩, []⟩

def c1State : LibState :=
  disconnect_from_couchbase_bucket (connect_to_couchbase_bucket initState (.ok 7) none).1

/-- Counterexample to claim C1: after connecting (handle 7) and then
disconnecting, the registry is EMPTY (no entries, current unset), yet
`view_document_by_key` does not raise the no-active-connection error — it is
issued against the stale closed handle and returns the store's code. -/
theorem empty_registry_op_no_error_after_disconnect :
    c1State.cache = CacheState.empty ∧
    c1State.cache.current = none ∧
    view_document_by_key w3Store c1State "k" = .ok 13 ∧
    view_document_by_key w3Store c1State "k" ≠ .error .noActiveConnection := by
  refine ⟨rfl, rfl, rfl, fun h => Except.noConfusion h⟩

/-- Claim C1 (amended): every document operation raises the
no-active-connection error when the facade's stored bucket reference is
unset — which is the case after construction and after
`close_all_couchbase_bucket_connections`, but not in the empty registry
state reached by `disconnect_from_couchbase_bucket`, which leaves the stale
bucket reference in place. -/
theorem doc_ops_raise_when_bucket_unset (store : Store) (validator : Validator)
    (s : LibState) (key expr : String) (v : Value) (hb : s.bucket = none) :
    view_document_by_key store s key = .error .noActiveConnection ∧
    bucket_contains_document_by_key store s key = .error .noActiveConnection ∧
    get_document_cas_by_key store s key = .error .noActiveConnection ∧
    get_document_value_by_key store s key = .error .noActiveConnection ∧
    validate_document_by_json store validator s key expr = .error .noActiveConnection ∧
    certainly_delete_document_by_key s key = .error .noActiveConnection ∧
    upsert_document s key v = .error .noActiveConnection ∧
    initState.bucket = none ∧
    (close_all_couchbase_bucket_connections s).bucket = none := by
  simp [view_document_by_key, bucket_contains_document_by_key, get_document_cas_by_key,
    get_document_value_by_key, validate_document_by_json,
    certainly_delete_document_by_key, upsert_document,
    close_all_couchbase_bucket_connections, initState, hb]

theorem doc_ops_raise_when_bucket_unset_witness :
    view_document_by_key w3Store initState "k" = .error .noActiveConnection ∧
    bucket_contains_document_by_key w3Store initState "k" = .error .noActiveConnection ∧
    get_document_cas_by_key w3Store initState "k" = .error .noActiveConnection ∧
    get_document_value_by_key w3Store initState "k" = .error .noActiveConnection ∧
    validate_document_by_json w3Store okValidator initState "k" ".x"
      = .error .noActiveConnection ∧
    certainly_delete_document_by_key initState "k" = .error .noActiveConnection ∧
    upsert_document initState "k" "" = .error .noActiveConnection ∧
    initState.bucket = none ∧
    (close_all_couchbase_bucket_connections initState).bucket = none :=
  doc_ops_raise_when_bucket_unset w3Store okValidator initState "k" ".x" "" rfl

/-- Claim C9: with an active connection, `validate_document_by_json` never
raises: it returns `false` when the key is absent, `false` when the
validator errors on the present document (the error is caught), and `true`
exactly when the key is present and the expression matches. -/
theorem validate_never_raises (store : Store) (validator : Validator) (s : LibState)
    (b : Handle) (key expr : String) (hb : s.bucket = some b) :
    (∃ r : Bool, validate_document_by_json store validator s key expr = .ok r) ∧
    ((store b key).success = false →
      validate_document_by_json store validator s key expr = .ok false) ∧
    (∀ e, (store b key).success = true → validator (store b key).value expr = .error e →
      validate_document_by_json store validator s key expr = .ok false) ∧
    (validate_document_by_json store validator s key expr = .ok true ↔
      (store b key).success = true ∧ validator (store b key).value expr = .ok ()) := by
  unfold validate_document_by_json
  rw [hb]
  cases hsucc : (store b key).success
  · simp [hsucc]
  · cases hv : validator (store b key).value expr <;> simp [hsucc, hv]

theorem validate_never_raises_witness :
    (∃ r : Bool, validate_document_by_json hitStore okValidator w9State "k" ".x" = .ok r) ∧
    ((hitStore 3 "k").success = false →
      validate_document_by_json hitStore okValidator w9State "k" ".x" = .ok false) ∧
    (∀ e, (hitStore 3 "k").success = true →
      okValidator (hitStore 3 "k").value ".x" = .error e →
      validate_document_by_json hitStore okValidator w9State "k" ".x" = .ok false) ∧
    (validate_document_by_json hitStore okValidator w9State "k" ".x" = .ok true ↔
      (hitStore 3 "k").success = true ∧ okValidator (hitStore 3 "k").value ".x" = .ok ()) :=
  validate_never_raises hitStore okValidator w9State 3 "k" ".x" rfl

/-- Counterexample to claim C10: `get_document_cas_by_key` is not the only
read operation issuing a non-quiet lookup — on an absent key,
`get_document_value_by_key` also raises the not-found error, while the quiet
reads return data. -/
theorem getcas_not_only_nonquiet_read :
    get_document_value_by_key w3Store w2State "k" = .error .notFound ∧
    get_document_cas_by_key w3Store w2State "k" = .error .notFound ∧
    view_document_by_key w3Store w2State "k" = .ok 13 ∧
    bucket_contains_document_by_key w3Store w2State "k" = .ok false :=
  ⟨rfl, rfl, rfl, rfl⟩

/-- Claim C10 (amended): with an active connection,
`get_document_cas_by_key` uses a non-quiet lookup — it raises the not-found
error when the key is absent and returns the lookup's CAS token when the key
is present; however it is not the only such read operation, since
`get_document_value_by_key` issues a non-quiet lookup as well. -/
theorem getcas_nonquiet_lookup (store : Store) (s : LibState) (b : Handle) (key : String)
    (hb : s.bucket = some b) :
    ((store b key).success = false →
      get_document_cas_by_key store s key = .error .notFound ∧
      get_document_value_by_key store s key = .error .notFound) ∧
    ((store b key).success = true →
      get_document_cas_by_key store s key = .ok (store b key).cas ∧
      get_document_value_by_key store s key = .ok (store b key).value) := by
  unfold get_document_cas_by_key get_document_value_by_key clientGet
  rw [hb]
  cases hsucc : (store b key).success <;> simp [hsucc, Except.map]

theorem getcas_nonquiet_lookup_witness :
    (get_document_cas_by_key w3Store w2State "k" = .error .notFound ∧
     get_document_value_by_key w3Store w2State "k" = .error .notFound) ∧
    (get_document_cas_by_key hitStore w9State "k" = .ok (hitStore 3 "k").cas ∧
     get_document_value_by_key hitStore w9State "k" = .ok (hitStore 3 "k").value) :=
  ⟨(getcas_nonquiet_lookup w3Store w2State 5 "k" rfl).1 rfl,
   (getcas_nonquiet_lookup hitStore w9State 3 "k" rfl).2 rfl⟩

/-- Changing only the current pointer does not affect lookup resolution. -/
theorem CacheState.resolve_set_current (c : CacheState) (j : Option Nat)
    (arg : IndexOrAlias) :
    CacheState.resolve { c with current := j } arg = c.resolve arg := by
  cases arg <;> rfl

/-- A successful cache switch: when the argument resolves to index `i` and
the entry exists, the cache's current pointer moves to `i` and the entry's
handle is returned. -/
theorem CacheState.switch_ok (c : CacheState) (arg : IndexOrAlias) (i : Nat)
    (conn : Handle) (hres : c.resolve arg = some i)
    (hget : c.connections.get? (i - 1) = some conn) :
    c.switch arg = .ok ({ c with current := some i }, conn) := by
  unfold CacheState.switch
  simp only [hres, hget]

/-- Claim C6: with two registered entries resolvable as `argA` (index `iA`)
and `argB` (index `iB`), a successful switch returns the index that was
current immediately before the call and makes the target current; switching
to A then to B returns A's index, and a further switch back to A returns
B's index. -/
theorem switch_returns_previous_and_roundtrips (s : LibState) (argA argB : IndexOrAlias)
    (iA iB : Nat)
    (hA : s.cache.resolve argA = some iA) (hA1 : 1 ≤ iA)
    (hA2 : iA ≤ s.cache.connections.length)
    (hB : s.cache.resolve argB = some iB) (hB1 : 1 ≤ iB)
    (hB2 : iB ≤ s.cache.connections.length) :
    ∃ s1 s2,
      switch_couchbase_bucket_connections s argA = (s1, .ok s.cache.current) ∧
      s1.cache.current = some iA ∧
      switch_couchbase_bucket_connections s1 argB = (s2, .ok (some iA)) ∧
      s2.cache.current = some iB ∧
      (switch_couchbase_bucket_connections s2 argA).2 = .ok (some iB) := by
  have hgA : iA - 1 < s.cache.connections.length := by omega
  have hgB : iB - 1 < s.cache.connections.length := by omega
  refine ⟨{ s with
              cache := { s.cache with current := some iA },
              bucket := some (s.cache.connections.get ⟨iA - 1, hgA⟩) },
          { s with
              cache := { s.cache with current := some iB },
              bucket := some (s.cache.connections.get ⟨iB - 1, hgB⟩) },
          ?_, rfl, ?_, rfl, ?_⟩
  · simp only [switch_couchbase_bucket_connections,
      CacheState.switch_ok s.cache argA iA _ hA (List.get?_eq_get hgA)]
  · simp only [switch_couchbase_bucket_connections,
      CacheState.switch_ok _ argB iB _
        ((CacheState.resolve_set_current s.cache (some iA) argB).trans hB)
        (List.get?_eq_get hgB)]
  · simp only [switch_couchbase_bucket_connections,
      CacheState.switch_ok _ argA iA _
        ((CacheState.resolve_set_current s.cache (some iB) argA).trans hA)
        (List.get?_eq_get hgA)]

def w6State : LibState :=
  ⟨some 20, ⟨[10, 20], [("b2", 2), ("b1", 1)], some 2⟩, []⟩

theorem switch_returns_previous_and_roundtrips_witness :
    ∃ s1 s2,
      switch_couchbase_bucket_connections w6State (.name "b1")
        = (s1, .ok w6State.cache.current) ∧
      s1.cache.current = some 1 ∧
      switch_couchbase_bucket_connections s1 (.idx 2) = (s2, .ok (some 1)) ∧
      s2.cache.current = some 2 ∧
      (switch_couchbase_bucket_connections s2 (.name "b1")).2 = .ok (some 2) :=
  switch_returns_previous_and_roundtrips w6State (.name "b1") (.idx 2) 1 2
    (by decide) (by decide) (by decide) (by decide) (by decide) (by decide)

/-- A successful connect stores the handle, appends it to the registry, and
sets the new entry as current. -/
theorem connect_ok_state (s : LibState) (h : Handle) (a : Option String) :
    ((connect_to_couchbase_bucket s (.ok h) a).1).cache.connections
        = s.cache.connections ++ [h] ∧
    ((connect_to_couchbase_bucket s (.ok h) a).1).cache.current
        = some (s.cache.connections.length + 1) ∧
    ((connect_to_couchbase_bucket s (.ok h) a).1).bucket = some h :=
  ⟨rfl, rfl, rfl⟩

/-- Generalized index bookkeeping for `runConnects`: starting from a registry
with `k` entries, the calls return `k+1, k+2, ...` in order, and after each
call the current pointer is the freshly returned index, which is also the
position of the newest entry. -/
theorem runConnects_spec (conns : List (Handle × Option String)) (s : LibState) :
    (runConnects conns s).map Prod.snd
      = (List.range' (s.cache.connections.length + 1) conns.length).map
          (fun i => (Except.ok i : Except LibErr Nat)) ∧
    ∀ x ∈ runConnects conns s,
      ∃ i, x.2 = .ok i ∧ x.1.cache.current = some i ∧
        x.1.cache.connections.length = i := by
  induction conns generalizing s with
  | nil => simp [runConnects]
  | cons p rest ih =>
    obtain ⟨h, a⟩ := p
    have hstep2 : (connect_to_couchbase_bucket s (.ok h) a).2
        = .ok (s.cache.connections.length + 1) := rfl
    have hlen : ((connect_to_couchbase_bucket s (.ok h) a).1).cache.connections.length
        = s.cache.connections.length + 1 := by
      rw [(connect_ok_state s h a).1, List.length_append, List.length_singleton]
    have hcur : ((connect_to_couchbase_bucket s (.ok h) a).1).cache.current
        = some (s.cache.connections.length + 1) := (connect_ok_state s h a).2.1
    obtain ⟨ih1, ih2⟩ := ih (connect_to_couchbase_bucket s (.ok h) a).1
    constructor
    · simp only [runConnects, List.map_cons, hstep2, ih1, hlen, List.length_cons,
        List.range'_succ]
    · intro x hx
      simp only [runConnects, List.mem_cons] at hx
      rcases hx with hx | hx
      · exact ⟨s.cache.connections.length + 1,
          by rw [hx]; exact hstep2, by rw [hx]; exact hcur, by rw [hx]; exact hlen⟩
      · exact ih2 x hx

/-- Claim C4: from a registry with no entries, a sequence of `N` successful
connects returns indices exactly `1, 2, ..., N` in call order, and after
each call the newly registered connection is the current one (the current
pointer equals the returned index, the position of the newest entry). -/
theorem connects_return_sequential_indices (conns : List (Handle × Option String))
    (s : LibState) (hs : s.cache.connections = []) :
    (runConnects conns s).map Prod.snd
      = (List.range' 1 conns.length).map (fun i => (Except.ok i : Except LibErr Nat)) ∧
    ∀ x ∈ runConnects conns s,
      ∃ i, x.2 = .ok i ∧ x.1.cache.current = some i ∧
        x.1.cache.connections.length = i := by
  have hspec := runConnects_spec conns s
  rw [hs] at hspec
  simpa using hspec

theorem connects_return_sequential_indices_witness :
    (runConnects [(5, none), (7, some "b")] initState).map Prod.snd
      = (List.range' 1 2).map (fun i => (Except.ok i : Except LibErr Nat)) ∧
    ∀ x ∈ runConnects [(5, none), (7, some "b")] initState,
      ∃ i, x.2 = .ok i ∧ x.1.cache.current = some i ∧
        x.1.cache.connections.length = i :=
  connects_return_sequential_indices [(5, none), (7, some "b")] initState rfl

end CouchbaseLib
